import Mathlib

/-!
Shallow embedding of the dialogue dispatch subsystem of TheGame
(src/dialogue), covering the request queue with its cooldown and retry
bookkeeping (src/dialogue/queue.rs) and the OpenAI dialogue broker with
its validation and message assembly (src/dialogue/broker/openai.rs,
src/dialogue/types.rs, src/dialogue/errors.rs).

Rust `f32` values are modelled as `ℚ`; the arithmetic the code performs
on them (subtraction, `max`, comparisons against `f32::EPSILON`) is exact
on the rationals involved.  Rust `Duration` values are modelled as `ℚ`
seconds (`as_secs_f32`).  `u64`/`u32`/`u8` counters are modelled as `Nat`;
overflow is unreachable for every claim considered (ids and metrics would
need 2^64 operations), except `retries : u8` whose `saturating_add` is
modelled explicitly.
-/

/-- Value of Rust `f32::EPSILON` (2⁻²³ = 1/8388608), used by
`CooldownTracker::is_ready`; written in normal form so that the kernel can
evaluate comparisons against it (see `f32Epsilon_eq`). -/
def f32Epsilon : ℚ := Rat.mk' 1 8388608 (by norm_num) (Nat.coprime_one_left 8388608)

namespace Queue

/-- Provider tag used by the queue-side API (`DialogueProvider`); only the
variants exercised by the queue code matter for the claims. -/
inductive DialogueProvider where
  | Local
  | OpenAi
  deriving DecidableEq, Repr

/-- Rust `DialogueRequest` from src/dialogue/queue.rs: id, provider, optional
NPC id, prompt and retry counter (`retries: u8`). -/
structure DialogueRequest where
  id : Nat
  provider : DialogueProvider
  npc_id : Option Nat
  prompt : String
  retries : Nat
  deriving DecidableEq, Repr

/-- Rust `DialogueQueueConfig` from src/dialogue/queue.rs. -/
structure DialogueQueueConfig where
  global_cooldown_secs : ℚ
  per_npc_cooldown_secs : ℚ
  max_retries : Nat
  max_dispatches_per_tick : Nat
  deriving DecidableEq, Repr

/-- Rust `DialogueQueueConfig::default()`. -/
def DialogueQueueConfig.default : DialogueQueueConfig :=
  { global_cooldown_secs := 1
    per_npc_cooldown_secs := 30
    max_retries := 3
    max_dispatches_per_tick := 4 }

/-- Rust `DialogueQueueMetrics` from src/dialogue/queue.rs. -/
structure DialogueQueueMetrics where
  enqueued : Nat := 0
  accepted : Nat := 0
  deferred : Nat := 0
  retries_scheduled : Nat := 0
  throttled : Nat := 0
  timed_out : Nat := 0
  transport_errors : Nat := 0
  dropped : Nat := 0
  deriving DecidableEq, Repr

/-- Rust `CooldownTracker` from src/dialogue/queue.rs. -/
structure CooldownTracker where
  remaining : ℚ
  deriving DecidableEq, Repr

/-- Rust `CooldownTracker::ready()`. -/
def CooldownTracker.ready : CooldownTracker := ⟨0⟩

/-- Rust `CooldownTracker::tick`: `self.remaining = (self.remaining - delta_seconds).max(0.0)`. -/
def CooldownTracker.tick (t : CooldownTracker) (delta_seconds : ℚ) : CooldownTracker :=
  ⟨max (t.remaining - delta_seconds) 0⟩

/-- Rust `CooldownTracker::is_ready`: `self.remaining <= f32::EPSILON`. -/
def CooldownTracker.is_ready (t : CooldownTracker) : Bool :=
  decide (t.remaining ≤ f32Epsilon)

/-- Rust `CooldownTracker::trigger`: `self.remaining = cooldown.max(0.0)`. -/
def CooldownTracker.trigger (_t : CooldownTracker) (cooldown : ℚ) : CooldownTracker :=
  ⟨max cooldown 0⟩

/-- Rust `RetryEntry` from src/dialogue/queue.rs; `RetryEntry::new` clamps the
delay at zero (`delay.as_secs_f32().max(0.0)`). -/
structure RetryEntry where
  request : DialogueRequest
  remaining : ℚ
  deriving DecidableEq, Repr

/-- Rust `RetryEntry::new(request, delay)`. -/
def RetryEntry.new (request : DialogueRequest) (delay : ℚ) : RetryEntry :=
  ⟨request, max delay 0⟩

/-- Queue-side `DialogueError` as consumed by `record_error`
(src/dialogue/queue.rs lines 246-277 and the tests in the same file):
variants `Throttled { retry_after, .. }`, `Timeout { request_id, elapsed }`,
`Transport { .. }`, `UnsupportedProvider { provider, .. }` and
`Cancelled { request_id, reason }`. -/
inductive DialogueError where
  | Throttled (request_id : Nat) (retry_after : ℚ)
  | Timeout (request_id : Nat) (elapsed : ℚ)
  | Transport (request_id : Nat) (message : String)
  | UnsupportedProvider (request_id : Nat) (provider : DialogueProvider)
  | Cancelled (request_id : Nat) (reason : String)
  deriving DecidableEq, Repr

/-- Rust `DialogueRequestQueue` from src/dialogue/queue.rs.  The `HashMap` of
per-NPC cooldowns is modelled as an association list with unique keys
(lookup takes the first match; inserts update in place or append). -/
structure DialogueRequestQueue where
  pending : List DialogueRequest
  delayed : List RetryEntry
  npc_cooldowns : List (Nat × CooldownTracker)
  global_cooldown : CooldownTracker
  config : DialogueQueueConfig
  metrics : DialogueQueueMetrics
  next_id : Nat
  deriving DecidableEq, Repr

/-- Rust `DialogueRequestQueue::new(config)`. -/
def DialogueRequestQueue.new (config : DialogueQueueConfig) : DialogueRequestQueue :=
  { pending := []
    delayed := []
    npc_cooldowns := []
    global_cooldown := CooldownTracker.ready
    config := config
    metrics := {}
    next_id := 1 }

/-- Rust `self.npc_cooldowns.get(&npc)` on the association list. -/
def lookupCooldown (m : List (Nat × CooldownTracker)) (npc : Nat) : Option CooldownTracker :=
  (m.find? (fun p => p.1 = npc)).map (·.2)

/-- Rust `self.npc_cooldowns.entry(npc).or_insert_with(CooldownTracker::ready).trigger(c)`:
update the entry in place when present, append a fresh triggered entry otherwise. -/
def triggerNpcCooldown (m : List (Nat × CooldownTracker)) (npc : Nat) (c : ℚ) :
    List (Nat × CooldownTracker) :=
  if m.any (fun p => p.1 = npc) then
    m.map (fun p => if p.1 = npc then (p.1, p.2.trigger c) else p)
  else
    m ++ [(npc, CooldownTracker.ready.trigger c)]

/-- Rust `DialogueRequestQueue::can_dispatch` (src/dialogue/queue.rs lines
312-321), as a function of the per-NPC cooldown map. -/
def can_dispatch (m : List (Nat × CooldownTracker)) (request : DialogueRequest) : Bool :=
  match request.npc_id with
  | some npc => ((lookupCooldown m npc).map (·.is_ready)).getD true
  | none => true

/-- Rust `DialogueRequestQueue::enqueue`: assigns `next_id`, appends the request
with zero retries, bumps the `enqueued` metric and increments `next_id`. -/
def DialogueRequestQueue.enqueue (q : DialogueRequestQueue) (provider : DialogueProvider)
    (npc_id : Option Nat) (prompt : String) : Nat × DialogueRequestQueue :=
  (q.next_id,
    { q with
      pending := q.pending ++ [⟨q.next_id, provider, npc_id, prompt, 0⟩]
      metrics := { q.metrics with enqueued := q.metrics.enqueued + 1 }
      next_id := q.next_id + 1 })

/-- Cooldown updates performed when a request is dispatched inside
`take_ready_limit`: trigger the global cooldown and, when the request has
an NPC id, that NPC's cooldown. -/
def applyDispatchCooldowns (q : DialogueRequestQueue) (request : DialogueRequest) :
    DialogueRequestQueue :=
  let q1 := { q with global_cooldown := q.global_cooldown.trigger q.config.global_cooldown_secs }
  match request.npc_id with
  | some npc =>
      { q1 with npc_cooldowns := triggerNpcCooldown q1.npc_cooldowns npc q.config.per_npc_cooldown_secs }
  | none => q1

/-- Inner loop of `take_ready_limit` (`for _ in 0..pending_len`): pop from
the front; a dispatchable request is removed (cooldowns triggered) and
returned, a blocked one is pushed to the back and the scan continues. -/
def takeInner : Nat → DialogueRequestQueue → Option DialogueRequest × DialogueRequestQueue
  | 0, q => (none, q)
  | n + 1, q =>
    match q.pending with
    | [] => (none, q)
    | r :: rest =>
      if can_dispatch q.npc_cooldowns r then
        (some r, applyDispatchCooldowns { q with pending := rest } r)
      else
        takeInner n { q with pending := rest ++ [r] }

/-- Outer loop of `take_ready_limit` (`for _ in 0..limit`): stop when the
global cooldown is active, the pending queue is empty, or no dispatchable
request was found; otherwise collect the dispatched request and continue. -/
def takeOuter : Nat → DialogueRequestQueue → List DialogueRequest × DialogueRequestQueue
  | 0, q => ([], q)
  | n + 1, q =>
    if q.global_cooldown.is_ready then
      if q.pending.isEmpty then ([], q)
      else
        match takeInner q.pending.length q with
        | (none, q1) => ([], q1)
        | (some r, q1) =>
          let rec_ := takeOuter n q1
          (r :: rec_.1, rec_.2)
    else ([], q)

/-- Rust `DialogueRequestQueue::take_ready_limit` (src/dialogue/queue.rs lines
174-217).  The early `limit == 0` return coincides with running the outer
loop zero times. -/
def DialogueRequestQueue.take_ready_limit (q : DialogueRequestQueue) (limit : Nat) :
    List DialogueRequest × DialogueRequestQueue :=
  takeOuter limit q

/-- Rust `DialogueRequestQueue::take_ready`: `take_ready_limit` with the
configured `max_dispatches_per_tick`. -/
def DialogueRequestQueue.take_ready (q : DialogueRequestQueue) :
    List DialogueRequest × DialogueRequestQueue :=
  q.take_ready_limit q.config.max_dispatches_per_tick

/-- Drain loop over `delayed` inside `DialogueRequestQueue::tick`: each
entry's remaining delay becomes `(remaining - delta).max(0.0)`; entries at
or below `f32::EPSILON` are promoted (their requests appended to pending in
drain order), the others are kept in order. -/
def tickDelayed (delta_seconds : ℚ) :
    List RetryEntry → List DialogueRequest × List RetryEntry
  | [] => ([], [])
  | e :: rest =>
    let r := max (e.remaining - delta_seconds) 0
    let tail := tickDelayed delta_seconds rest
    if r ≤ f32Epsilon then (e.request :: tail.1, tail.2)
    else (tail.1, ⟨e.request, r⟩ :: tail.2)

/-- Rust `DialogueRequestQueue::tick` (src/dialogue/queue.rs lines 219-235):
tick the global cooldown, every per-NPC cooldown, and every delayed entry,
promoting delayed entries whose remaining delay reaches (ε of) zero. -/
def DialogueRequestQueue.tick (q : DialogueRequestQueue) (delta_seconds : ℚ) :
    DialogueRequestQueue :=
  let promoted := tickDelayed delta_seconds q.delayed
  { q with
    global_cooldown := q.global_cooldown.tick delta_seconds
    npc_cooldowns := q.npc_cooldowns.map (fun p => (p.1, p.2.tick delta_seconds))
    pending := q.pending ++ promoted.1
    delayed := promoted.2 }

/-- Rust `DialogueRequestQueue::schedule_retry` (src/dialogue/queue.rs lines
283-310): with `increment_retry` set, a request whose `retries` already
reached `max_retries` is dropped (one `dropped` metric bump) and otherwise
has `retries` incremented (u8 `saturating_add`); the surviving request is
appended to `pending` when the delay is zero, to `delayed` otherwise. -/
def DialogueRequestQueue.schedule_retry (q : DialogueRequestQueue)
    (request : DialogueRequest) (delay : ℚ) (increment_retry : Bool) :
    DialogueRequestQueue :=
  if increment_retry ∧ request.retries ≥ q.config.max_retries then
    { q with metrics := { q.metrics with dropped := q.metrics.dropped + 1 } }
  else
    let request1 :=
      if increment_retry then { request with retries := min (request.retries + 1) 255 }
      else request
    let q1 :=
      if delay = 0 then { q with pending := q.pending ++ [request1] }
      else { q with delayed := q.delayed ++ [RetryEntry.new request1 delay] }
    { q1 with metrics := { q1.metrics with retries_scheduled := q1.metrics.retries_scheduled + 1 } }

/-- Rust `DialogueRequestQueue::retry_or_drop`. -/
def DialogueRequestQueue.retry_or_drop (q : DialogueRequestQueue)
    (request : DialogueRequest) (delay : ℚ) : DialogueRequestQueue :=
  q.schedule_retry request delay true

/-- Rust `DialogueRequestQueue::record_error` (src/dialogue/queue.rs lines
246-277): throttled errors schedule a retry without touching `retries`;
timeouts and transport errors go through `retry_or_drop` with fixed delays;
unsupported-provider and cancelled errors drop the request. -/
def DialogueRequestQueue.record_error (q : DialogueRequestQueue)
    (request : DialogueRequest) (error : DialogueError) : DialogueRequestQueue :=
  match error with
  | .Throttled _ retry_after =>
    let q1 := { q with metrics := { q.metrics with throttled := q.metrics.throttled + 1 } }
    q1.schedule_retry request retry_after false
  | .Timeout _ _ =>
    let q1 := { q with metrics := { q.metrics with timed_out := q.metrics.timed_out + 1 } }
    q1.retry_or_drop request 1
  | .Transport _ _ =>
    let q1 := { q with metrics := { q.metrics with transport_errors := q.metrics.transport_errors + 1 } }
    q1.retry_or_drop request 2
  | .UnsupportedProvider _ _ =>
    { q with metrics := { q.metrics with dropped := q.metrics.dropped + 1 } }
  | .Cancelled _ _ =>
    { q with metrics := { q.metrics with dropped := q.metrics.dropped + 1 } }

/-- Rust `DialogueRequestQueue::record_deferred`. -/
def DialogueRequestQueue.record_deferred (q : DialogueRequestQueue)
    (request : DialogueRequest) (retry_after : ℚ) : DialogueRequestQueue :=
  let q1 := { q with metrics := { q.metrics with deferred := q.metrics.deferred + 1 } }
  q1.schedule_retry request retry_after false

end Queue

namespace Broker

/-- Display of `NpcId` (src/npc/components.rs): `write!(f, "NPC-{:04}", self.0)`:
decimal, left-padded with zeros to at least four digits. -/
def npcDisplay (n : Nat) : String :=
  let s := toString n
  "NPC-" ++ String.mk (List.replicate (4 - s.length) '0') ++ s

/-- ASCII lowercase folding of one character, as used byte-wise by Rust
`str::eq_ignore_ascii_case`. -/
def asciiLower (c : Char) : Char :=
  if 65 ≤ c.toNat ∧ c.toNat ≤ 90 then Char.ofNat (c.toNat + 32) else c

/-- Rust `str::eq_ignore_ascii_case`: equality after ASCII case folding
(non-ASCII characters compare exactly; folding is per character, which
matches the byte-wise comparison on UTF-8). -/
def eqIgnoreAsciiCase (a b : String) : Bool :=
  a.data.map asciiLower == b.data.map asciiLower

/-- Rust `char::is_whitespace` (the Unicode `White_Space` property), which
`str::trim` strips from both ends. -/
def isRustWhitespace (c : Char) : Bool :=
  (9 ≤ c.toNat && c.toNat ≤ 13) || c.toNat == 32 || c.toNat == 133 ||
    c.toNat == 160 || c.toNat == 5760 || (8192 ≤ c.toNat && c.toNat ≤ 8202) ||
    c.toNat == 8232 || c.toNat == 8233 || c.toNat == 8239 || c.toNat == 8287 ||
    c.toNat == 12288

/-- Rust `str::trim` on the character list. -/
def rustTrimList (l : List Char) : List Char :=
  ((l.dropWhile isRustWhitespace).reverse.dropWhile isRustWhitespace).reverse

/-- Rust `str::trim`. -/
def rustTrim (s : String) : String :=
  String.mk (rustTrimList s.data)

/-- Rust `DialogueTopicHint` from src/dialogue/types.rs. -/
inductive DialogueTopicHint where
  | Status
  | Trade
  | Schedule
  deriving DecidableEq, Repr

/-- Rust `TradeContextReason` from src/dialogue/types.rs. -/
inductive TradeContextReason where
  | Production
  | Processing
  | Exchange
  deriving DecidableEq, Repr

/-- Rust `TradeDescriptor` from src/dialogue/types.rs (`quantity: u32`). -/
structure TradeDescriptor where
  label : String
  quantity : Nat
  deriving DecidableEq, Repr

/-- Rust `TradeContext` from src/dialogue/types.rs (`day: u64`). -/
structure TradeContext where
  day : Nat
  from_npc : Option Nat
  to_npc : Option Nat
  descriptor : TradeDescriptor
  reason : TradeContextReason
  deriving DecidableEq, Repr

/-- Rust `DialogueContextEvent` from src/dialogue/types.rs. -/
inductive DialogueContextEvent where
  | Trade (trade : TradeContext)
  | ScheduleUpdate (description : String)
  deriving DecidableEq, Repr

/-- Rust `DialogueContext` from src/dialogue/types.rs. -/
structure DialogueContext where
  summary : Option String
  events : List DialogueContextEvent
  deriving DecidableEq, Repr

/-- Rust `DialogueRequest` from src/dialogue/types.rs (speaker/target are NpcId). -/
structure DialogueRequest where
  speaker : Nat
  target : Option Nat
  prompt : String
  topic_hint : DialogueTopicHint
  context : DialogueContext
  deriving DecidableEq, Repr

/-- Rust `DialogueProviderKind` from src/dialogue/broker/mod.rs. -/
inductive DialogueProviderKind where
  | OpenAi
  deriving DecidableEq, Repr

/-- Rust `DialogueResponse` from src/dialogue/types.rs. -/
structure DialogueResponse where
  request_id : Nat
  provider : DialogueProviderKind
  speaker : Nat
  target : Option Nat
  content : String
  deriving DecidableEq, Repr

/-- Rust `DialogueContextSource` from src/dialogue/errors.rs. -/
inductive DialogueContextSource where
  | TradeHistory
  | ScheduleState
  | InventoryState
  deriving DecidableEq, Repr

/-- Rust `DialogueErrorKind` from src/dialogue/errors.rs (`retry_after_seconds: f32`). -/
inductive DialogueErrorKind where
  | RateLimited (retry_after_seconds : ℚ)
  | ProviderFailure (message : String)
  | ContextMissing (missing : DialogueContextSource)
  deriving DecidableEq, Repr

/-- Rust `DialogueError` from src/dialogue/errors.rs. -/
structure DialogueError where
  request_id : Nat
  provider : DialogueProviderKind
  kind : DialogueErrorKind
  deriving DecidableEq, Repr

/-- Helper: does the context hold at least one `Trade` event
(`events.iter().any(|e| matches!(e, DialogueContextEvent::Trade(_)))`)? -/
def hasTradeEvent (events : List DialogueContextEvent) : Bool :=
  events.any fun e => match e with
    | .Trade _ => true
    | _ => false

/-- Helper: does the context hold at least one `ScheduleUpdate` event? -/
def hasScheduleEvent (events : List DialogueContextEvent) : Bool :=
  events.any fun e => match e with
    | .ScheduleUpdate _ => true
    | _ => false

/-- Rust `OpenAiDialogueBroker::validate` (src/dialogue/broker/openai.rs lines
92-138): empty-after-trim prompt, then the manual-retry sentinel (matched
ASCII-case-insensitively, backoff 3.0s), then the topic checks; the Trade
summary check is `summary.is_none()`. -/
def validate (request : DialogueRequest) : Option DialogueErrorKind :=
  if rustTrim request.prompt = "" then
    some (.ProviderFailure "prompt cannot be empty")
  else if eqIgnoreAsciiCase request.prompt "retry later" then
    some (.RateLimited 3)
  else
    match request.topic_hint with
    | .Trade =>
      if request.context.summary.isNone then
        some (.ContextMissing .InventoryState)
      else if ¬ hasTradeEvent request.context.events then
        some (.ContextMissing .TradeHistory)
      else none
    | .Schedule =>
      if ¬ hasScheduleEvent request.context.events then
        some (.ContextMissing .ScheduleState)
      else none
    | .Status => none

/-- Rust `topic_label` from src/dialogue/broker/openai.rs. -/
def topic_label (topic : DialogueTopicHint) : String :=
  match topic with
  | .Status => "status"
  | .Trade => "trade"
  | .Schedule => "schedule"

/-- Trade action verb shared by both renderings. -/
def tradeAction (reason : TradeContextReason) : String :=
  match reason with
  | .Production => "produced"
  | .Processing => "processed"
  | .Exchange => "exchanged"

/-- Target label: `NpcId` display, or the fallback label "player". -/
def targetLabel (target : Option Nat) : String :=
  match target with
  | some id => npcDisplay id
  | none => "player"

/-- Event loop of `build_user_message`, accumulating pushed sections:
trade events render as `Trade event: Day {day} {action} {qty} {label}`
with optional ` (from …)` then ` (to …)`; schedule updates render as
`Schedule update: {trimmed}` and are skipped when trim-empty. -/
def pushUserEventSections (sections : List String) :
    List DialogueContextEvent → List String
  | [] => sections
  | .Trade trade :: rest =>
    let detail := "Trade event: Day " ++ toString trade.day ++ " " ++
      tradeAction trade.reason ++ " " ++ toString trade.descriptor.quantity ++
      " " ++ trade.descriptor.label
    let detail := match trade.from_npc with
      | some f => detail ++ " (from " ++ npcDisplay f ++ ")"
      | none => detail
    let detail := match trade.to_npc with
      | some t => detail ++ " (to " ++ npcDisplay t ++ ")"
      | none => detail
    pushUserEventSections (sections ++ [detail]) rest
  | .ScheduleUpdate description :: rest =>
    if rustTrim description = "" then pushUserEventSections sections rest
    else pushUserEventSections (sections ++ ["Schedule update: " ++ rustTrim description]) rest

/-- Section list built by `build_user_message` (src/dialogue/broker/openai.rs
lines 289-355) before joining: speaker, target, topic and prompt lines, the
context-summary line when trim-nonempty, one line per rendered context
event, the fixed no-context line when exactly the four fixed lines exist,
and the closing instruction. -/
def buildUserMessageSections (request : DialogueRequest) : List String :=
  let sections := ["Speaker: " ++ npcDisplay request.speaker]
  let sections := sections ++ ["Target: " ++ targetLabel request.target]
  let sections := sections ++ ["Topic: " ++ topic_label request.topic_hint]
  let sections := sections ++ ["Prompt: " ++ rustTrim request.prompt]
  let sections := match request.context.summary with
    | some s => if rustTrim s = "" then sections
                else sections ++ ["Context summary: " ++ rustTrim s]
    | none => sections
  let sections := pushUserEventSections sections request.context.events
  let sections := if sections.length = 4 then
      sections ++ ["No notable context available."]
    else sections
  sections ++ ["Respond as the speaker, addressing the target naturally."]

/-- Rust `build_user_message`: the sections joined with newlines. -/
def build_user_message (request : DialogueRequest) : String :=
  String.intercalate "\n" (buildUserMessageSections request)

/-- Event loop of `compose_context_segments`, accumulating pushed segments:
trade events render as `On day {day} they {action} {qty} {label}` with
optional ` with {to}` then ` after receiving it from {from}` and a closing
period; schedule updates render as `Schedule update: {description}.`
(untrimmed, never skipped). -/
def pushFallbackEventSegments (segments : List String) :
    List DialogueContextEvent → List String
  | [] => segments
  | .Trade trade :: rest =>
    let detail := "On day " ++ toString trade.day ++ " they " ++
      tradeAction trade.reason ++ " " ++ toString trade.descriptor.quantity ++
      " " ++ trade.descriptor.label
    let detail := match trade.to_npc with
      | some t => detail ++ " with " ++ npcDisplay t
      | none => detail
    let detail := match trade.from_npc with
      | some f => detail ++ " after receiving it from " ++ npcDisplay f
      | none => detail
    pushFallbackEventSegments (segments ++ [detail ++ "."]) rest
  | .ScheduleUpdate description :: rest =>
    pushFallbackEventSegments (segments ++ ["Schedule update: " ++ description ++ "."]) rest

/-- Segment list built by `compose_context_segments`
(src/dialogue/broker/openai.rs lines 357-410) before joining: trimmed
prompt, the `Summary:` line when trim-nonempty, the `Target:` line, one
segment per context event, and the fixed no-context segment when the list
would otherwise be empty. -/
def composeContextSegmentsList (request : DialogueRequest) : List String :=
  let segments := [rustTrim request.prompt]
  let segments := match request.context.summary with
    | some s => if rustTrim s = "" then segments
                else segments ++ ["Summary: " ++ rustTrim s]
    | none => segments
  let segments := segments ++ ["Target: " ++ targetLabel request.target]
  let segments := pushFallbackEventSegments segments request.context.events
  if segments = [] then ["No notable context available."] else segments

/-- Rust `compose_context_segments`: the segments joined with single spaces. -/
def compose_context_segments (request : DialogueRequest) : String :=
  String.intercalate " " (composeContextSegmentsList request)

/-- Broker mode selected once at construction (src/dialogue/broker/openai.rs):
live mode carries the network call as an abstract send function
(`OpenAiLiveClient::send`); fallback mode performs no call. -/
inductive BrokerMode where
  | Live (send : Nat → DialogueRequest → Except DialogueErrorKind DialogueResponse)
  | Fallback

/-- Rust `OpenAiDialogueBroker::fabricate_response`: fallback response carrying
the composed context segments. -/
def fabricate_response (request_id : Nat) (request : DialogueRequest) : DialogueResponse :=
  ⟨request_id, .OpenAi, request.speaker, request.target, compose_context_segments request⟩

/-- Rust `OpenAiDialogueBroker::process` (src/dialogue/broker/openai.rs lines
161-177): validation first; on validation failure the error is returned
with no use of the mode (hence no network call); otherwise live mode
delegates to the client and fallback mode fabricates a response. -/
def process (mode : BrokerMode) (request_id : Nat) (request : DialogueRequest) :
    Except DialogueError DialogueResponse :=
  match validate request with
  | some kind => .error ⟨request_id, .OpenAi, kind⟩
  | none =>
    match mode with
    | .Live send =>
      match send request_id request with
      | .ok response => .ok response
      | .error kind => .error ⟨request_id, .OpenAi, kind⟩
    | .Fallback => .ok (fabricate_response request_id request)

/-- Helper: is an `Except` value a success? -/
def exceptIsOk {ε α : Type} (e : Except ε α) : Bool :=
  match e with
  | .ok _ => true
  | .error _ => false

end Broker

namespace Queue

/-- Successive `enqueue` calls (one per input triple), collecting the
returned ids in order. -/
def enqueueAll (q : DialogueRequestQueue) :
    List (DialogueProvider × Option Nat × String) → List Nat × DialogueRequestQueue
  | [] => ([], q)
  | x :: xs =>
    let step := q.enqueue x.1 x.2.1 x.2.2
    let rest := enqueueAll step.2 xs
    (step.1 :: rest.1, rest.2)

/-- No cooldown value anywhere in the queue state is negative: the global
cooldown, every per-NPC cooldown, and every delayed entry's remaining delay. -/
def CooldownsNonneg (q : DialogueRequestQueue) : Prop :=
  0 ≤ q.global_cooldown.remaining ∧
    (∀ p ∈ q.npc_cooldowns, 0 ≤ p.2.remaining) ∧
    (∀ e ∈ q.delayed, 0 ≤ e.remaining)

end Queue

/-- Reference cooldown update taken from the spec's words for `tick`:
each value v becomes max(v - max(delta, 0), 0), i.e. a negative delta is
treated as zero. -/
def specCooldownStep (v delta : ℚ) : ℚ := max (v - max delta 0) 0

namespace Broker

/-- Rendering of one context event in the fallback response, written as a
single expression (used to characterize the event loop of
`compose_context_segments`). -/
def fallbackEventSegmentSpec (e : DialogueContextEvent) : String :=
  match e with
  | .Trade t =>
    "On day " ++ toString t.day ++ " they " ++ tradeAction t.reason ++ " " ++
      toString t.descriptor.quantity ++ " " ++ t.descriptor.label ++
      (match t.to_npc with
       | some x => " with " ++ npcDisplay x
       | none => "") ++
      (match t.from_npc with
       | some x => " after receiving it from " ++ npcDisplay x
       | none => "") ++ "."
  | .ScheduleUpdate d => "Schedule update: " ++ d ++ "."

/-- Declarative description of the fallback segment list: trimmed prompt,
then the summary segment when trim-nonempty, then the target segment, then
one segment per context event in order — never the no-context substitute,
since the prompt and target segments always exist. -/
def fallbackSegmentsSpec (request : DialogueRequest) : List String :=
  rustTrim request.prompt ::
    ((match request.context.summary with
      | some s => if rustTrim s = "" then [] else ["Summary: " ++ rustTrim s]
      | none => []) ++
     ("Target: " ++ targetLabel request.target) ::
      request.context.events.map fallbackEventSegmentSpec)

end Broker

/-! Concrete fixtures used by counterexamples and witnesses. -/

/-- Configuration with a zero global cooldown (`trigger(0.0)` leaves the
tracker ready, so several requests can be popped in one call). -/
def cfgZero : Queue.DialogueQueueConfig := ⟨0, 0, 3, 4⟩

/-- Plain request with no NPC id. -/
def fixReqA : Queue.DialogueRequest := ⟨1, .Local, none, "first", 0⟩

/-- Second plain request with no NPC id. -/
def fixReqB : Queue.DialogueRequest := ⟨2, .Local, none, "second", 0⟩

/-- Queue holding two ready requests under a zero global cooldown. -/
def qMultiPop : Queue.DialogueRequestQueue :=
  { pending := [fixReqA, fixReqB], delayed := [], npc_cooldowns := [],
    global_cooldown := ⟨0⟩, config := cfgZero, metrics := {}, next_id := 3 }

/-- Request from NPC 1 (whose cooldown will be active). -/
def fixReqNpc1 : Queue.DialogueRequest := ⟨1, .Local, some 1, "a", 0⟩

/-- Request from NPC 2. -/
def fixReqNpc2 : Queue.DialogueRequest := ⟨2, .Local, some 2, "b", 0⟩

/-- Request from NPC 3. -/
def fixReqNpc3 : Queue.DialogueRequest := ⟨3, .Local, some 3, "c", 0⟩

/-- Queue with NPC 1 on cooldown: the head request is blocked and gets
rotated behind the later-enqueued requests. -/
def qRotation : Queue.DialogueRequestQueue :=
  { pending := [fixReqNpc1, fixReqNpc2, fixReqNpc3], delayed := [],
    npc_cooldowns := [(1, ⟨5⟩)], global_cooldown := ⟨0⟩, config := cfgZero,
    metrics := {}, next_id := 4 }

/-- Queue with a unit cooldown everywhere (global, NPC 1, one delayed entry). -/
def qUnitCooldowns : Queue.DialogueRequestQueue :=
  { pending := [], delayed := [⟨fixReqA, 1⟩], npc_cooldowns := [(1, ⟨1⟩)],
    global_cooldown := ⟨1⟩, config := cfgZero, metrics := {}, next_id := 1 }

/-- Fresh queue with `max_retries = 0`. -/
def qMaxZero : Queue.DialogueRequestQueue := Queue.DialogueRequestQueue.new ⟨0, 0, 0, 4⟩

/-- Request that has already been retried once (`retries = 1`). -/
def fixReqRetried : Queue.DialogueRequest := ⟨1, .Local, none, "hi", 1⟩

/-- Trade context event: day 3, exchanged 2 grain crate, from NPC 1 to NPC 2. -/
def fixTradeEvent : Broker.DialogueContextEvent :=
  .Trade ⟨3, some 1, some 2, ⟨"grain crate", 2⟩, .Exchange⟩

/-- Trade-topic request whose summary is present but empty (`Some("")`)
and which carries one trade event. -/
def fixReqEmptySummary : Broker.DialogueRequest :=
  ⟨1, none, "hello", .Trade, ⟨some "", [fixTradeEvent]⟩⟩

/-- Trade-topic request with no summary. -/
def fixReqNoSummary : Broker.DialogueRequest :=
  ⟨1, none, "hello", .Trade, ⟨none, [fixTradeEvent]⟩⟩

/-- Trade-topic request with a non-empty summary and one trade event. -/
def fixReqGoodTrade : Broker.DialogueRequest :=
  ⟨1, some 2, "Discuss the latest trade", .Trade, ⟨some "Short summary", [fixTradeEvent]⟩⟩

/-- Status-topic request with no target, no summary and no events. -/
def fixReqStatus : Broker.DialogueRequest := ⟨1, none, "Hello", .Status, ⟨none, []⟩⟩

/-- Request whose prompt is the manual-retry sentinel in upper case. -/
def fixReqManualRetry : Broker.DialogueRequest :=
  ⟨1, none, "RETRY LATER", .Trade, ⟨none, []⟩⟩

/-! Helper lemmas. -/

/-- The epsilon constant is 2⁻²³, the value of Rust `f32::EPSILON`. -/
theorem f32Epsilon_eq : f32Epsilon = 1 / 2 ^ 23 := by
  rw [f32Epsilon, Rat.mk'_eq_divInt, Rat.divInt_eq_div]
  norm_num

/-- Characterization of the delayed-entry drain loop of `tick`: updated
entries at (ε of) zero are promoted in order, the others kept in order. -/
theorem tickDelayed_eq (d : ℚ) (l : List Queue.RetryEntry) :
    Queue.tickDelayed d l =
      (((l.map (fun e => Queue.RetryEntry.mk e.request (max (e.remaining - d) 0))).filter
          (fun e => decide (e.remaining ≤ f32Epsilon))).map (fun e => e.request),
        (l.map (fun e => Queue.RetryEntry.mk e.request (max (e.remaining - d) 0))).filter
          (fun e => decide (f32Epsilon < e.remaining))) := by
  induction l with
  | nil => simp [Queue.tickDelayed]
  | cons e rest ih =>
    rw [Queue.tickDelayed]
    by_cases h : max (e.remaining - d) 0 ≤ f32Epsilon
    · simp [h, ih, not_lt.2 h]
    · simp [h, ih, not_le.1 h]

/-- Ids returned by a run of successive enqueues are consecutive from the
queue's current `next_id`. -/
theorem enqueueAll_fst (xs : List (Queue.DialogueProvider × Option Nat × String)) :
    ∀ q : Queue.DialogueRequestQueue,
      (Queue.enqueueAll q xs).1 = List.range' q.next_id xs.length := by
  induction xs with
  | nil => intro q; simp [Queue.enqueueAll]
  | cons x xs ih =>
    intro q
    simp [Queue.enqueueAll, Queue.DialogueRequestQueue.enqueue, ih, List.range'_succ]

/-! Claim theorems. -/

/-- C2 counterexample: a throttled completion for a request with
`retries = 0` re-enqueues it with `retries` still 0 — the attempts counter
is not incremented before the retry is scheduled, contrary to the claim. -/
theorem throttled_retry_keeps_attempts_at_zero :
    ((qMaxZero.record_error fixReqA (.Throttled 1 5)).delayed.map
        (fun e => e.request.retries)) = [0] ∧
      fixReqA.retries = 0 := by decide

/-- C2 amended: on a throttled (rate-limited) completion the scheduler
schedules the retry WITHOUT incrementing the request's attempts counter:
the request is appended to the delayed list unchanged, the pending queue is
untouched, and no drop is recorded — for every request and retry-after. -/
theorem throttled_schedules_retry_without_increment
    (q : Queue.DialogueRequestQueue) (request : Queue.DialogueRequest)
    (rid : Nat) (retry_after : ℚ) (h : retry_after ≠ 0) :
    (q.record_error request (.Throttled rid retry_after)).delayed =
        q.delayed ++ [Queue.RetryEntry.new request retry_after] ∧
      (q.record_error request (.Throttled rid retry_after)).pending = q.pending ∧
      (q.record_error request (.Throttled rid retry_after)).metrics.dropped =
        q.metrics.dropped := by
  unfold Queue.DialogueRequestQueue.record_error Queue.DialogueRequestQueue.schedule_retry
  simp [h]

/-- C2 witness: the amended theorem applied at a concrete queue, request
and retry-after of 5 seconds. -/
theorem throttled_schedules_retry_without_increment_witness :
    (qMaxZero.record_error fixReqA (.Throttled 1 5)).delayed =
      qMaxZero.delayed ++ [Queue.RetryEntry.new fixReqA 5] :=
  (throttled_schedules_retry_without_increment qMaxZero fixReqA 1 5 (by decide)).1

/-- C3 counterexample: with `max_retries = 0`, a request whose attempts
counter is 1 (exceeding the limit) is nevertheless re-enqueued by a
throttled failure, and no terminal drop is recorded. -/
theorem throttled_bypasses_retry_limit :
    (qMaxZero.record_error fixReqRetried (.Throttled 1 5)).delayed =
        [⟨fixReqRetried, 5⟩] ∧
      (qMaxZero.record_error fixReqRetried (.Throttled 1 5)).metrics.dropped = 0 ∧
      qMaxZero.config.max_retries < fixReqRetried.retries := by decide

/-- C3 amended: for the attempt-counting failures (timeout and transport),
a request whose attempts counter has reached (or exceeds) `max_retries` is
never re-enqueued: pending and delayed are unchanged and exactly one
terminal drop is recorded.  Throttled failures bypass this limit. -/
theorem attempt_counting_failures_drop_at_limit
    (q : Queue.DialogueRequestQueue) (request : Queue.DialogueRequest)
    (rid : Nat) (elapsed : ℚ) (message : String)
    (h : q.config.max_retries ≤ request.retries) :
    (q.record_error request (.Timeout rid elapsed)).pending = q.pending ∧
      (q.record_error request (.Timeout rid elapsed)).delayed = q.delayed ∧
      (q.record_error request (.Timeout rid elapsed)).metrics.dropped =
        q.metrics.dropped + 1 ∧
      (q.record_error request (.Transport rid message)).pending = q.pending ∧
      (q.record_error request (.Transport rid message)).delayed = q.delayed ∧
      (q.record_error request (.Transport rid message)).metrics.dropped =
        q.metrics.dropped + 1 := by
  unfold Queue.DialogueRequestQueue.record_error Queue.DialogueRequestQueue.retry_or_drop
    Queue.DialogueRequestQueue.schedule_retry
  simp [ge_iff_le, h]

/-- C3 witness: the amended theorem applied at a queue with
`max_retries = 0` and a request with `retries = 1`. -/
theorem attempt_counting_failures_drop_at_limit_witness :
    (qMaxZero.record_error fixReqRetried (.Timeout 1 1)).metrics.dropped =
      qMaxZero.metrics.dropped + 1 :=
  (attempt_counting_failures_drop_at_limit qMaxZero fixReqRetried 1 1 "boom"
    (by decide)).2.2.1

/-- C6 counterexample: `tick` does not clamp a negative delta to zero — at
a global cooldown of 1, `tick(-1)` yields 2 where the spec's reference
update max(v - max(delta,0), 0) yields 1. -/
theorem tick_negative_delta_diverges_from_spec :
    (qUnitCooldowns.tick (-1)).global_cooldown.remaining ≠
      specCooldownStep qUnitCooldowns.global_cooldown.remaining (-1) := by
  norm_num [Queue.DialogueRequestQueue.tick, Queue.CooldownTracker.tick, qUnitCooldowns,
    specCooldownStep]

/-- C6 amended: for every non-negative delta, `tick(delta)` performs the
reference update max(v - delta, 0) on the global cooldown, every per-NPC
cooldown and every delayed entry (promoted entries move to pending); a
negative delta, however, is subtracted as-is rather than treated as zero. -/
theorem tick_nonneg_delta_matches_spec
    (q : Queue.DialogueRequestQueue) (delta : ℚ) (h : 0 ≤ delta) :
    (q.tick delta).global_cooldown.remaining =
        specCooldownStep q.global_cooldown.remaining delta ∧
      (q.tick delta).npc_cooldowns =
        q.npc_cooldowns.map (fun p => (p.1, ⟨specCooldownStep p.2.remaining delta⟩)) ∧
      (q.tick delta).delayed =
        (q.delayed.map (fun e =>
            Queue.RetryEntry.mk e.request (specCooldownStep e.remaining delta))).filter
          (fun e => decide (f32Epsilon < e.remaining)) ∧
      (q.tick delta).pending = q.pending ++
        (((q.delayed.map (fun e =>
            Queue.RetryEntry.mk e.request (specCooldownStep e.remaining delta))).filter
          (fun e => decide (e.remaining ≤ f32Epsilon))).map (fun e => e.request)) := by
  have hspec : ∀ v : ℚ, specCooldownStep v delta = max (v - delta) 0 := by
    intro v; simp [specCooldownStep, max_eq_left h]
  refine ⟨?_, ?_, ?_, ?_⟩ <;>
    simp [Queue.DialogueRequestQueue.tick, Queue.CooldownTracker.tick, tickDelayed_eq, hspec]

/-- C6 witness: the amended theorem applied at the unit-cooldown queue with
delta 1. -/
theorem tick_nonneg_delta_matches_spec_witness :
    (qUnitCooldowns.tick 1).global_cooldown.remaining =
      specCooldownStep qUnitCooldowns.global_cooldown.remaining 1 :=
  (tick_nonneg_delta_matches_spec qUnitCooldowns 1 (by decide)).1

/-- C7: for every queue state and every non-negative delta, after
`tick(delta)` no cooldown value anywhere — global cooldown, per-NPC
cooldowns, delayed entries — is negative. -/
theorem tick_cooldowns_nonneg
    (q : Queue.DialogueRequestQueue) (delta : ℚ) (_h : 0 ≤ delta) :
    Queue.CooldownsNonneg (q.tick delta) := by
  refine ⟨?_, ?_, ?_⟩
  · exact le_max_right _ 0
  · intro p hp
    simp only [Queue.DialogueRequestQueue.tick, List.mem_map] at hp
    obtain ⟨p0, _, rfl⟩ := hp
    exact le_max_right _ 0
  · intro e he
    simp only [Queue.DialogueRequestQueue.tick, tickDelayed_eq, List.mem_filter,
      List.mem_map] at he
    obtain ⟨⟨e0, _, rfl⟩, _⟩ := he
    exact le_max_right _ 0

/-- C7 witness: the theorem applied at the unit-cooldown queue with delta 1. -/
theorem tick_cooldowns_nonneg_witness :
    Queue.CooldownsNonneg (qUnitCooldowns.tick 1) :=
  tick_cooldowns_nonneg qUnitCooldowns 1 (by decide)

/-- C9 counterexample: the first enqueue on a freshly constructed queue
returns id 1, not 0 (`next_id` starts at 1). -/
theorem first_enqueue_returns_one :
    ((Queue.DialogueRequestQueue.new .default).enqueue .Local none "hello").1 = 1 ∧
      ((Queue.DialogueRequestQueue.new .default).enqueue .Local none "hello").1 ≠ 0 := by
  decide

/-- C9 amended: starting from a freshly constructed queue, successive
`enqueue` calls return ids 1, 2, 3, … in order (the n-th enqueue returns n). -/
theorem enqueue_ids_start_at_one (cfg : Queue.DialogueQueueConfig)
    (xs : List (Queue.DialogueProvider × Option Nat × String)) :
    (Queue.enqueueAll (Queue.DialogueRequestQueue.new cfg) xs).1 =
      List.range' 1 xs.length := by
  rw [enqueueAll_fst]
  rfl

/-- Dispatching a request triggers the global cooldown to the configured
value (clamped at zero) and leaves the configuration unchanged. -/
theorem applyDispatchCooldowns_fields (q : Queue.DialogueRequestQueue)
    (r : Queue.DialogueRequest) :
    (Queue.applyDispatchCooldowns q r).config = q.config ∧
      (Queue.applyDispatchCooldowns q r).global_cooldown =
        ⟨max q.config.global_cooldown_secs 0⟩ := by
  rcases hr : r.npc_id with _ | npc <;>
    simp [Queue.applyDispatchCooldowns, Queue.CooldownTracker.trigger, hr]

/-- When the inner scan of `take_ready_limit` dispatches a request, the
resulting state has the same configuration and a freshly triggered global
cooldown. -/
theorem takeInner_some (n : Nat) :
    ∀ (q q1 : Queue.DialogueRequestQueue) (r : Queue.DialogueRequest),
      Queue.takeInner n q = (some r, q1) →
        q1.config = q.config ∧
          q1.global_cooldown = ⟨max q.config.global_cooldown_secs 0⟩ := by
  induction n with
  | zero => intro q q1 r h; simp [Queue.takeInner] at h
  | succ n ih =>
    intro q q1 r h
    rw [Queue.takeInner] at h
    split at h
    · simp at h
    · rename_i r0 rest
      split at h
      · injection h with h1 h2
        subst h2
        exact applyDispatchCooldowns_fields _ _
      · simpa using ih _ _ _ h

/-- The outer loop of `take_ready_limit` stops immediately when the global
cooldown is active. -/
theorem takeOuter_nil_of_not_ready (n : Nat) (q : Queue.DialogueRequestQueue)
    (h : q.global_cooldown.is_ready = false) :
    Queue.takeOuter n q = ([], q) := by
  cases n <;> simp [Queue.takeOuter, h]

/-- C1 counterexample: under a configuration with a zero global cooldown,
one `take_ready_limit` call pops two requests, so more than one element
can be handed to dispatch per tick. -/
theorem take_pops_two_with_zero_global_cooldown :
    (qMultiPop.take_ready_limit 2).1.length = 2 := by decide

/-- C1 amended: whenever the configured global cooldown exceeds
`f32::EPSILON`, at most one request is popped and handed to dispatch per
`take_ready_limit` call, for every queue state and every limit (dispatching
triggers the global cooldown, which blocks the rest of the loop). -/
theorem take_ready_limit_pops_at_most_one
    (q : Queue.DialogueRequestQueue) (limit : Nat)
    (h : f32Epsilon < q.config.global_cooldown_secs) :
    (q.take_ready_limit limit).1.length ≤ 1 := by
  cases limit with
  | zero => simp [Queue.DialogueRequestQueue.take_ready_limit, Queue.takeOuter]
  | succ n =>
    unfold Queue.DialogueRequestQueue.take_ready_limit
    rw [Queue.takeOuter]
    split
    · split
      · simp
      · rcases hti : Queue.takeInner q.pending.length q with ⟨o, q1⟩
        cases o with
        | none => simp
        | some r =>
          have hf := takeInner_some q.pending.length q q1 r hti
          have hnr : q1.global_cooldown.is_ready = false := by
            rw [hf.2]
            simp only [Queue.CooldownTracker.is_ready, decide_eq_false_iff_not, not_le]
            exact lt_of_lt_of_le h (le_max_left _ _)
          simp [takeOuter_nil_of_not_ready n q1 hnr]
    · simp

/-- C1 witness: the amended theorem applied at a fresh default-configured
queue (global cooldown 1.0 s) with limit 4. -/
theorem take_ready_limit_pops_at_most_one_witness :
    ((Queue.DialogueRequestQueue.new .default).take_ready_limit 4).1.length ≤ 1 :=
  take_ready_limit_pops_at_most_one (Queue.DialogueRequestQueue.new .default) 4 (by decide)

/-- The inner scan of `take_ready_limit` returns the first request among
the scanned prefix that passes `can_dispatch` (the cooldown map never
changes while blocked requests are rotated to the back). -/
theorem takeInner_fst (n : Nat) :
    ∀ q : Queue.DialogueRequestQueue, n ≤ q.pending.length →
      (Queue.takeInner n q).1 =
        (q.pending.take n).find? (fun r => Queue.can_dispatch q.npc_cooldowns r) := by
  induction n with
  | zero => intro q _; simp [Queue.takeInner]
  | succ n ih =>
    intro q h
    rw [Queue.takeInner]
    rcases hp : q.pending with _ | ⟨r0, rest⟩
    · simp
    · have hn : n ≤ rest.length := by
        rw [hp] at h; simpa using Nat.succ_le_succ_iff.mp h
      by_cases hc : Queue.can_dispatch q.npc_cooldowns r0
      · simp [hc, List.find?]
      · have hlen : n ≤ ({ q with pending := rest ++ [r0] } :
            Queue.DialogueRequestQueue).pending.length := by
          simpa using Nat.le_succ_of_le hn
        have hih := ih { q with pending := rest ++ [r0] } hlen
        rw [List.take_append_of_le_length hn] at hih
        simp [hc, hih, List.find?]

/-- C5 counterexample: with NPC 1 on cooldown at the head of the queue,
one take pops the SECOND request and rotates the head behind the third, so
the relative order of the remaining pending requests is not preserved
(request 1 was enqueued before request 3 but now sits behind it). -/
theorem take_rotates_blocked_request_to_back :
    (qRotation.take_ready_limit 1).1 = [fixReqNpc2] ∧
      (qRotation.take_ready_limit 1).2.pending = [fixReqNpc3, fixReqNpc1] := by decide

/-- C5 amended: when the global cooldown is ready, a take with limit 1
dispatches the first request in FIFO order that passes `can_dispatch`;
requests blocked by a per-NPC cooldown are skipped and rotated to the back
of the queue, so FIFO holds only among dispatchable requests and the
relative order of the remaining entries is not preserved in general. -/
theorem take_pops_first_dispatchable (q : Queue.DialogueRequestQueue)
    (h : q.global_cooldown.is_ready = true) :
    (q.take_ready_limit 1).1 =
      (q.pending.find? (fun r => Queue.can_dispatch q.npc_cooldowns r)).toList := by
  unfold Queue.DialogueRequestQueue.take_ready_limit
  rw [Queue.takeOuter, if_pos h]
  by_cases hp : q.pending.isEmpty
  · have hnil : q.pending = [] := by simpa [List.isEmpty_iff] using hp
    simp [hp, hnil]
  · rw [if_neg hp]
    rcases hti : Queue.takeInner q.pending.length q with ⟨o, q1⟩
    have hfst := takeInner_fst q.pending.length q (le_refl _)
    rw [List.take_length, hti] at hfst
    cases o with
    | none => simp [← hfst]
    | some r => simp [Queue.takeOuter, ← hfst]

/-- C5 witness: the amended theorem applied at the rotation fixture, where
the first dispatchable request is the second one enqueued. -/
theorem take_pops_first_dispatchable_witness :
    (qRotation.take_ready_limit 1).1 =
      (qRotation.pending.find?
        (fun r => Queue.can_dispatch qRotation.npc_cooldowns r)).toList :=
  take_pops_first_dispatchable qRotation (by decide)

/-- ASCII case folding fixes every Unicode whitespace character (no
whitespace code point lies in the ASCII uppercase range). -/
theorem asciiLower_of_whitespace (c : Char)
    (h : Broker.isRustWhitespace c = true) : Broker.asciiLower c = c := by
  unfold Broker.isRustWhitespace at h
  simp only [Bool.or_eq_true, Bool.and_eq_true, decide_eq_true_eq, Nat.beq_eq_true_eq] at h
  unfold Broker.asciiLower
  rw [if_neg]
  omega

/-- A prompt that case-folds to "retry later" cannot be whitespace-only, so
its trim is non-empty. -/
theorem rustTrim_ne_empty_of_retry_fold (p : String)
    (h : p.data.map Broker.asciiLower = "retry later".data) :
    ¬ Broker.rustTrim p = "" := by
  intro hnil
  have hlist : Broker.rustTrimList p.data = [] := by
    have hdata := congrArg String.data hnil
    simpa [Broker.rustTrim] using hdata
  have hall : ∀ c ∈ p.data, Broker.isRustWhitespace c = true := by
    unfold Broker.rustTrimList at hlist
    rw [List.reverse_eq_nil_iff, List.dropWhile_eq_nil_iff] at hlist
    intro c hc
    have hsplit := List.takeWhile_append_dropWhile Broker.isRustWhitespace p.data
    rw [← hsplit] at hc
    rcases List.mem_append.mp hc with h1 | h2
    · exact List.mem_takeWhile_imp h1
    · exact hlist c (List.mem_reverse.mpr h2)
  cases hd : p.data with
  | nil => rw [hd] at h; exact absurd h (by decide)
  | cons c t =>
    rw [hd] at h
    have hrl : "retry later".data = 'r' :: "etry later".data := by decide
    rw [List.map_cons, hrl] at h
    injection h with h1 h2
    have hw : Broker.isRustWhitespace c = true := by
      refine hall c ?_
      rw [hd]
      exact List.mem_cons_self c t
    rw [asciiLower_of_whitespace c hw] at h1
    rw [h1] at hw
    exact absurd hw (by decide)

/-- C10: the manual-retry sentinel is matched ASCII-case-insensitively:
for every broker mode (hence with no network call), request id and request
whose prompt case-folds to "retry later", `process` returns the
RateLimited error with a 3.0-second backoff, regardless of topic and
context. -/
theorem manual_retry_prompt_rate_limits
    (mode : Broker.BrokerMode) (rid : Nat) (request : Broker.DialogueRequest)
    (h : Broker.eqIgnoreAsciiCase request.prompt "retry later" = true) :
    Broker.process mode rid request =
      .error ⟨rid, .OpenAi, .RateLimited 3⟩ := by
  have hmap : request.prompt.data.map Broker.asciiLower = "retry later".data := by
    have h2 : request.prompt.data.map Broker.asciiLower =
        "retry later".data.map Broker.asciiLower := by
      simpa [Broker.eqIgnoreAsciiCase] using h
    rw [h2]
    decide
  have htrim := rustTrim_ne_empty_of_retry_fold request.prompt hmap
  have hval : Broker.validate request = some (.RateLimited 3) := by
    unfold Broker.validate
    rw [if_neg htrim, if_pos h]
  simp [Broker.process, hval]

/-- C10 witness: an upper-case "RETRY LATER" prompt (on a Trade request
with no context at all) is rate-limited with 3.0 s by the fallback broker. -/
theorem manual_retry_prompt_rate_limits_witness :
    Broker.eqIgnoreAsciiCase fixReqManualRetry.prompt "retry later" = true ∧
      Broker.process .Fallback 1 fixReqManualRetry =
        .error ⟨1, .OpenAi, .RateLimited 3⟩ :=
  ⟨by decide, manual_retry_prompt_rate_limits .Fallback 1 fixReqManualRetry (by decide)⟩

/-- C8 counterexample: a Trade request whose summary is present but empty
(`Some("")`) — hence not non-empty — passes validation and succeeds, where
the claim demands ContextMissing(InventoryState); only a missing
(`None`) summary is rejected. -/
theorem empty_summary_passes_trade_validation :
    Broker.validate fixReqEmptySummary = none ∧
      Broker.exceptIsOk (Broker.process .Fallback 7 fixReqEmptySummary) = true := by
  decide

/-- C8 amended: for every Trade-topic request passing the prompt checks,
`process` returns ContextMissing(InventoryState) when the context summary
is ABSENT (`None`; emptiness is not checked), ContextMissing(TradeHistory)
when a summary is present but no trade event exists — in both cases for
every broker mode, hence without a network call — and validation passes
whenever a summary is present and a trade event exists. -/
theorem trade_validation_checks
    (mode : Broker.BrokerMode) (rid : Nat) (request : Broker.DialogueRequest)
    (htopic : request.topic_hint = .Trade)
    (hprompt : ¬ Broker.rustTrim request.prompt = "")
    (hmanual : Broker.eqIgnoreAsciiCase request.prompt "retry later" = false) :
    (request.context.summary = none →
        Broker.process mode rid request =
          .error ⟨rid, .OpenAi, .ContextMissing .InventoryState⟩) ∧
      (∀ s, request.context.summary = some s →
        Broker.hasTradeEvent request.context.events = false →
          Broker.process mode rid request =
            .error ⟨rid, .OpenAi, .ContextMissing .TradeHistory⟩) ∧
      (∀ s, request.context.summary = some s →
        Broker.hasTradeEvent request.context.events = true →
          Broker.validate request = none) := by
  refine ⟨?_, ?_, ?_⟩
  · intro hs
    have hval : Broker.validate request =
        some (.ContextMissing .InventoryState) := by
      unfold Broker.validate
      rw [if_neg hprompt, if_neg (by simp [hmanual]), htopic]
      simp [hs]
    simp [Broker.process, hval]
  · intro s hs hT
    have hval : Broker.validate request =
        some (.ContextMissing .TradeHistory) := by
      unfold Broker.validate
      rw [if_neg hprompt, if_neg (by simp [hmanual]), htopic]
      simp [hs, hT]
    simp [Broker.process, hval]
  · intro s hs hT
    unfold Broker.validate
    rw [if_neg hprompt, if_neg (by simp [hmanual]), htopic]
    simp [hs, hT]

/-- C8 witness: the amended theorem applied at a Trade request with no
summary (InventoryState error from the fallback broker) and, for the
passing branch, at a Trade request with a non-empty summary and one trade
event. -/
theorem trade_validation_checks_witness :
    Broker.process .Fallback 2 fixReqNoSummary =
        .error ⟨2, .OpenAi, .ContextMissing .InventoryState⟩ ∧
      Broker.validate fixReqGoodTrade = none :=
  ⟨(trade_validation_checks .Fallback 2 fixReqNoSummary rfl (by decide) (by decide)).1 rfl,
    (trade_validation_checks .Fallback 3 fixReqGoodTrade rfl (by decide)
      (by decide)).2.2 "Short summary" rfl (by decide)⟩

/-- C4 counterexample: for a Status request with no target, no summary and
no events, the fallback segment list is not the live user-message line
list minus its closing instruction — the fallback omits the speaker and
topic lines (and the substituted no-context line). -/
theorem fallback_segments_differ_from_user_message_lines :
    Broker.composeContextSegmentsList fixReqStatus ≠
      (Broker.buildUserMessageSections fixReqStatus).dropLast := by decide

/-- The fallback event loop appends exactly one rendered segment per event. -/
theorem pushFallbackEventSegments_eq (events : List Broker.DialogueContextEvent) :
    ∀ segments, Broker.pushFallbackEventSegments segments events =
      segments ++ events.map Broker.fallbackEventSegmentSpec := by
  induction events with
  | nil => intro segments; simp [Broker.pushFallbackEventSegments]
  | cons e rest ih =>
    intro segments
    cases e with
    | Trade t =>
      rw [Broker.pushFallbackEventSegments, ih]
      rcases hto : t.to_npc with _ | x <;> rcases hfrom : t.from_npc with _ | y <;>
        simp [Broker.fallbackEventSegmentSpec, hto, hfrom, String.append_assoc,
          String.append_empty]
    | ScheduleUpdate d =>
      rw [Broker.pushFallbackEventSegments, ih]
      simp [Broker.fallbackEventSegmentSpec]

/-- C4 amended: the fallback response segments are exactly: the trimmed
prompt, then `Summary: …` when the summary is present and trim-nonempty,
then `Target: …` (fallback label when no target), then one segment per
context event in original order — with no speaker or topic line, and the
fixed no-context line is never substituted because the prompt and target
segments always exist. -/
theorem compose_segments_characterization (request : Broker.DialogueRequest) :
    Broker.composeContextSegmentsList request = Broker.fallbackSegmentsSpec request := by
  unfold Broker.composeContextSegmentsList Broker.fallbackSegmentsSpec
  simp only [pushFallbackEventSegments_eq]
  rcases hs : request.context.summary with _ | s
  · simp [hs]
  · by_cases he : Broker.rustTrim s = "" <;> simp [hs, he]
